import Mathlib

/-
Shallow embedding of the asteroids game core (files _asteroid.py, _bullet.py,
_ship.py, _game.py).  Machine floats are modelled by real numbers; the pygame
and numpy calls that only affect rendering are modelled by oracle parameters;
random draws and the scipy root finder are passed in explicitly as inputs.
-/

namespace AsteroidsGame

noncomputable section

open Classical

/-- Two-component vector addition (numpy elementwise `+` on length-2 arrays). -/
def v2add (a b : ℝ × ℝ) : ℝ × ℝ := (a.1 + b.1, a.2 + b.2)

/-- Two-component vector subtraction (numpy elementwise `-`). -/
def v2sub (a b : ℝ × ℝ) : ℝ × ℝ := (a.1 - b.1, a.2 - b.2)

/-- Scalar times a two-component vector (numpy broadcast `*`). -/
def v2smul (c : ℝ) (a : ℝ × ℝ) : ℝ × ℝ := (c * a.1, c * a.2)

/-- Euclidean norm of a length-2 vector, as computed by numpy.linalg.norm. -/
def norm2 (a : ℝ × ℝ) : ℝ := Real.sqrt (a.1 ^ 2 + a.2 ^ 2)

/-- Three-component real vector, modelling the numpy length-3 arrays the ship
dynamics use (z kept at 0 so that cross products express planar rotation). -/
structure Vec3 where
  x : ℝ
  y : ℝ
  z : ℝ

/-- Elementwise addition of length-3 arrays. -/
def Vec3.add (a b : Vec3) : Vec3 := ⟨a.x + b.x, a.y + b.y, a.z + b.z⟩

/-- Scalar multiplication of a length-3 array. -/
def Vec3.smul (c : ℝ) (a : Vec3) : Vec3 := ⟨c * a.x, c * a.y, c * a.z⟩

/-- numpy.cross for length-3 arrays. -/
def Vec3.cross (a b : Vec3) : Vec3 :=
  ⟨a.y * b.z - a.z * b.y, a.z * b.x - a.x * b.z, a.x * b.y - a.y * b.x⟩

/-- numpy.linalg.norm of a length-3 array. -/
def Vec3.norm (a : Vec3) : ℝ := Real.sqrt (a.x ^ 2 + a.y ^ 2 + a.z ^ 2)

/-- The `[:2]` slice of a length-3 array. -/
def Vec3.xy (a : Vec3) : ℝ × ℝ := (a.x, a.y)

/-- The `[ASTEROID]` section of the config file. -/
structure AsteroidConfig where
  minimum_diameter : ℝ
  median_diameter : ℝ
  minimum_speed : ℝ
  median_speed : ℝ
  edge_width : ℝ
  area_ratio : ℝ
  energy_ratio : ℝ

/-- The `[SHIP]` section of the config file. -/
structure ShipConfig where
  length : ℝ
  width : ℝ
  edge_width : ℝ
  linear_acceleration : ℝ
  angular_acceleration : ℝ
  reload_period : ℝ

/-- The `[BULLET]` section of the config file. -/
structure BulletConfig where
  diameter : ℝ
  muzzle_speed : ℝ
  lifespan : ℝ

/-- The `[GAME]` section of the config file. -/
structure GameConfig where
  initial_lives : ℤ
  asteroids_count : ℕ
  fragments_count : ℕ
  respawn_period : ℝ

/-- A parsed config file (the ConfigParser object passed around by reference). -/
structure Config where
  asteroid : AsteroidConfig
  ship : ShipConfig
  bullet : BulletConfig
  game : GameConfig

/-- RGB color triple. -/
def Color : Type := ℕ × ℕ × ℕ

/-- Bullet: class Bullet of _bullet.py.  The pygame image is a circle of the
configured diameter, so its size is (diameter, diameter). -/
structure Bullet where
  r : ℝ × ℝ
  color : Color
  config : Option Config
  diameter : ℝ
  muzzle_speed : ℝ
  lifespan : ℝ
  v : ℝ × ℝ
  alive : Bool
  age : ℝ

namespace Bullet

/-- Bullet.default_muzzle_speed (pixels / second). -/
def default_muzzle_speed : ℝ := 100

/-- Bullet.default_diameter (pixels). -/
def default_diameter : ℝ := 5

/-- Bullet.default_lifespan (seconds). -/
def default_lifespan : ℝ := 5

/-- Bullet.__init__. -/
def init (gun_position gun_velocity gun_direction : ℝ × ℝ) (color : Color)
    (config : Option Config) : Bullet :=
  let d := match config with
    | some c => c.bullet.diameter
    | none => default_diameter
  let ms := match config with
    | some c => c.bullet.muzzle_speed
    | none => default_muzzle_speed
  let ls := match config with
    | some c => c.bullet.lifespan
    | none => default_lifespan
  { r := gun_position
    color := color
    config := config
    diameter := d
    muzzle_speed := ms
    lifespan := ls
    v := v2add gun_velocity (v2smul ms gun_direction)
    alive := true
    age := 0 }

/-- Bullet.explode. -/
def explode (b : Bullet) : Bullet := { b with alive := false }

/-- Bullet.tick: advance the position and age, then explode on expiry. -/
def tick (dt : ℝ) (b : Bullet) : Bullet :=
  let b' := { b with r := v2add b.r (v2smul dt b.v), age := b.age + dt }
  if b'.age ≥ b'.lifespan then Bullet.explode b' else b'

/-- Bullet.get_size: the image is a (diameter, diameter) surface. -/
def get_size (b : Bullet) : ℝ × ℝ := (b.diameter, b.diameter)

end Bullet

/-- Asteroid: class Asteroid of _asteroid.py. -/
structure Asteroid where
  diameter : ℝ
  r : ℝ × ℝ
  v : ℝ × ℝ
  color : Color
  config : Option Config
  edge_width : ℝ
  area_ratio : ℝ
  energy_ratio : ℝ
  minimum_diameter : ℝ
  alive : Bool

namespace Asteroid

/-- Asteroid.default_minimum_diameter (pixels). -/
def default_minimum_diameter : ℝ := 30

/-- Asteroid.default_median_diameter (pixels). -/
def default_median_diameter : ℝ := 60

/-- Asteroid.default_minimum_speed (pixels / second). -/
def default_minimum_speed : ℝ := 0

/-- Asteroid.default_median_speed (pixels / second). -/
def default_median_speed : ℝ := 50

/-- Asteroid.default_area_ratio. -/
def default_area_ratio : ℝ := 3 / 4

/-- Asteroid.default_energy_ratio. -/
def default_energy_ratio : ℝ := 11 / 10

/-- Asteroid.default_edge_width (pixels). -/
def default_edge_width : ℝ := 2

/-- Asteroid.__init__. -/
def init (diameter : ℝ) (position velocity : ℝ × ℝ) (color : Color)
    (config : Option Config) : Asteroid :=
  { diameter := diameter
    r := position
    v := velocity
    color := color
    config := config
    edge_width := match config with
      | some c => c.asteroid.edge_width
      | none => default_edge_width
    area_ratio := match config with
      | some c => c.asteroid.area_ratio
      | none => default_area_ratio
    energy_ratio := match config with
      | some c => c.asteroid.energy_ratio
      | none => default_energy_ratio
    minimum_diameter := match config with
      | some c => c.asteroid.minimum_diameter
      | none => default_minimum_diameter
    alive := true }

/-- Asteroid.tick: `self._r += self._v * dt`. -/
def tick (dt : ℝ) (a : Asteroid) : Asteroid :=
  { a with r := v2add a.r (v2smul dt a.v) }

/-- Asteroid.get_size: the image is a pygame Surface built with the float
(diameter, diameter) size, which pygame truncates to integer pixels. -/
def get_size (a : Asteroid) : ℝ × ℝ := ((⌊a.diameter⌋ : ℤ), (⌊a.diameter⌋ : ℤ))

/-- The direction computed by Asteroid.generate_velocity from the two
`rng.uniform(0, 1)` draws: `direction = rng.uniform(0, 1, 2)` followed by
`direction /= numpy.linalg.norm(direction)`. -/
def generate_direction (u0 u1 : ℝ) : ℝ × ℝ :=
  (u0 / norm2 (u0, u1), u1 / norm2 (u0, u1))

/-- Asteroid.generate_velocity, with the random draws passed in explicitly:
`e` is a standard-exponential draw (`rng.exponential(beta)` is `beta * e`),
and `u0`, `u1` are the two `rng.uniform(0, 1)` draws in [0, 1). -/
def generate_velocity (config : Option Config) (e u0 u1 : ℝ) : ℝ × ℝ :=
  let s_min := match config with
    | some c => c.asteroid.minimum_speed
    | none => default_minimum_speed
  let s_med := match config with
    | some c => c.asteroid.median_speed
    | none => default_median_speed
  let beta := (s_med - s_min) / Real.log 2
  let speed := beta * e + s_min
  v2smul speed (generate_direction u0 u1)

/-- Conservation-of-momentum block of system_of_equations: for each axis,
the parent velocity component minus the mean of the corresponding fragment
velocity components (`numpy.sum(v[kk::2]) / fragments_count`).  `v` stands
for the flat vector of interleaved fragment velocity components. -/
def com_residual (parent_v : ℝ × ℝ) (fragments_count : ℕ) (v : ℕ → ℝ) :
    List ℝ :=
  List.ofFn (fun kk : Fin 2 =>
    (if kk.val = 0 then parent_v.1 else parent_v.2)
      - (∑ i ∈ Finset.range fragments_count, v (2 * i + kk.val))
        / (fragments_count : ℝ))

/-- The speeds vector of system_of_equations: the norm of each velocity pair
in the flat vector. -/
def speeds (v : ℕ → ℝ) (kk : ℕ) : ℝ := norm2 (v (2 * kk), v (2 * kk + 1))

/-- Conservation-of-energy component of system_of_equations. -/
def coe_residual (parent_v : ℝ × ℝ) (energy_ratio area_ratio : ℝ)
    (fragments_count : ℕ) (v : ℕ → ℝ) : ℝ :=
  energy_ratio * norm2 parent_v ^ 2
    - area_ratio / (fragments_count : ℝ)
      * ∑ kk ∈ Finset.range fragments_count, speeds v kk ^ 2

/-- Equal-velocities block of system_of_equations. -/
def ev_residual (fragments_count : ℕ) (v : ℕ → ℝ) : List ℝ :=
  List.ofFn (fun kk : Fin (fragments_count - 1) =>
    speeds v kk.val - speeds v (kk.val + 1))

/-- Equal-angles block of system_of_equations: differences of dot products of
consecutive velocity pairs. -/
def ea_residual (fragments_count : ℕ) (v : ℕ → ℝ) : List ℝ :=
  List.ofFn (fun kk : Fin (fragments_count - 2) =>
    (v (2 * kk.val) * v (2 * (kk.val + 1))
        + v (2 * kk.val + 1) * v (2 * (kk.val + 1) + 1))
      - (v (2 * (kk.val + 1)) * v (2 * (kk.val + 2))
        + v (2 * (kk.val + 1) + 1) * v (2 * (kk.val + 2) + 1)))

/-- The helper system_of_equations defined inside Asteroid.explode, returning
the residual vector fed to scipy.optimize.root: two momentum components,
one energy component, the equal-speed constraints and the equal-angle
constraints, concatenated in that order. -/
def system_of_equations (parent_v : ℝ × ℝ) (energy_ratio area_ratio : ℝ)
    (fragments_count : ℕ) (v : ℕ → ℝ) : List ℝ :=
  com_residual parent_v fragments_count v
    ++ [coe_residual parent_v energy_ratio area_ratio fragments_count v]
    ++ ev_residual fragments_count v
    ++ ea_residual fragments_count v

/-- Asteroid.explode.  The scipy.optimize.root call is modelled by the oracle
`sol`, standing for the solver output `sol.x` (the flat vector of interleaved
fragment velocity components).  Returns the updated parent (marked dead)
together with the fragment list. -/
def explode (sol : ℕ → ℝ) (a : Asteroid) (fragments_count : ℕ) :
    Asteroid × List Asteroid :=
  let a' := { a with alive := false }
  let diameter_ratio := Real.sqrt (a.area_ratio / (fragments_count : ℝ))
  if a.diameter < a.minimum_diameter / diameter_ratio then
    (a', [])
  else
    let fragments := List.ofFn (fun k : Fin fragments_count =>
      let frag := init (diameter_ratio * a.diameter) a.r (0, 0) a.color a.config
      { frag with v := (sol (2 * k.val), sol (2 * k.val + 1)) })
    (a', fragments)

end Asteroid

/-- Pygame event types the ship reacts to (pygame.KEYDOWN / pygame.KEYUP);
`other` stands for any other event type. -/
inductive EType where
  | keydown
  | keyup
  | other
deriving DecidableEq

/-- Keys the ship reacts to; `other` stands for any other key. -/
inductive Key where
  | up
  | left
  | right
  | space
  | other
deriving DecidableEq

/-- A pygame event as seen by Ship.handle_event. -/
structure Event where
  type : EType
  key : Key

/-- Ship: class Ship of _ship.py.  The rotated pygame image is modelled only
through its size, computed by an oracle from the heading vector. -/
structure Ship where
  r_cm : Vec3
  v_cm : Vec3
  u_nose_cm : Vec3
  omega : Vec3
  color : Color
  config : Option Config
  length : ℝ
  width : ℝ
  edge_width : ℝ
  a : ℝ
  alpha : ℝ
  reload_period : ℝ
  thrusting : ℤ
  steering : ℤ
  reloading : ℝ
  alive : Bool
  image_size : ℝ × ℝ

/-- The response tag BULLET_FIRED of _ship.py, paired with its payload. -/
inductive ShipResponse where
  | bullet_fired (b : Bullet)

namespace Ship

/-- Ship.default_linear_acceleration (pixels / second^2). -/
def default_linear_acceleration : ℝ := 100

/-- Ship.default_angular_acceleration (radians / second^2). -/
def default_angular_acceleration : ℝ := 2 * Real.pi

/-- Ship.default_length (pixels). -/
def default_length : ℝ := 30

/-- Ship.default_width (pixels). -/
def default_width : ℝ := 30

/-- Ship.default_edge_width (pixels). -/
def default_edge_width : ℝ := 2

/-- Ship.default_reload_period (seconds). -/
def default_reload_period : ℝ := 1

/-- The concatenated 12-component dynamic state split into its four
length-3 blocks, as produced by numpy.split(state, (3, 6, 9)). -/
structure DynState where
  r_cm : Vec3
  v_cm : Vec3
  u_nose_cm : Vec3
  omega : Vec3

/-- Elementwise addition of 12-component states. -/
def DynState.add (a b : DynState) : DynState :=
  ⟨Vec3.add a.r_cm b.r_cm, Vec3.add a.v_cm b.v_cm,
    Vec3.add a.u_nose_cm b.u_nose_cm, Vec3.add a.omega b.omega⟩

/-- Scalar multiplication of a 12-component state. -/
def DynState.smul (c : ℝ) (a : DynState) : DynState :=
  ⟨Vec3.smul c a.r_cm, Vec3.smul c a.v_cm,
    Vec3.smul c a.u_nose_cm, Vec3.smul c a.omega⟩

/-- The helper rates_of_change defined inside Ship.tick: dy/dt of the
12-component dynamic state. -/
def rates_of_change (sh : Ship) (st : DynState) : DynState :=
  { r_cm := st.v_cm
    v_cm := Vec3.smul ((sh.thrusting : ℝ) * sh.a) st.u_nose_cm
    u_nose_cm := Vec3.cross st.omega st.u_nose_cm
    omega := Vec3.smul ((sh.steering : ℝ) * sh.alpha) ⟨0, 0, 1⟩ }

/-- Ship.tick: one 4th-order Runge-Kutta step of the dynamics, followed by
re-normalization of the heading vector, the image rotation (modelled by the
`rotated_size` oracle) and the reload-timer decrement. -/
def tick (rotated_size : Vec3 → ℝ × ℝ) (dt : ℝ) (sh : Ship) : Ship :=
  let initial_state : DynState := ⟨sh.r_cm, sh.v_cm, sh.u_nose_cm, sh.omega⟩
  let k1 := rates_of_change sh initial_state
  let k2 := rates_of_change sh
    (DynState.add initial_state (DynState.smul (dt / 2) k1))
  let k3 := rates_of_change sh
    (DynState.add initial_state (DynState.smul (dt / 2) k2))
  let k4 := rates_of_change sh
    (DynState.add initial_state (DynState.smul dt k3))
  let new_state := DynState.add initial_state
    (DynState.smul (1 / 6 * dt)
      (DynState.add k1
        (DynState.add (DynState.smul 2 k2)
          (DynState.add (DynState.smul 2 k3) k4))))
  let u := Vec3.smul (1 / Vec3.norm new_state.u_nose_cm) new_state.u_nose_cm
  { sh with
    r_cm := new_state.r_cm
    v_cm := new_state.v_cm
    u_nose_cm := u
    omega := new_state.omega
    image_size := rotated_size u
    reloading := sh.reloading - dt }

/-- Ship.__init__, which ends with the `self.tick(0)` call that initializes
the image and normalizes the initial heading. -/
def init (rotated_size : Vec3 → ℝ × ℝ) (position velocity direction : ℝ × ℝ)
    (angular_velocity : ℝ) (color : Color) (config : Option Config) : Ship :=
  let base : Ship :=
    { r_cm := ⟨position.1, position.2, 0⟩
      v_cm := ⟨velocity.1, velocity.2, 0⟩
      u_nose_cm := ⟨direction.1, direction.2, 0⟩
      omega := ⟨0, 0, angular_velocity⟩
      color := color
      config := config
      length := match config with
        | some c => c.ship.length
        | none => default_length
      width := match config with
        | some c => c.ship.width
        | none => default_width
      edge_width := match config with
        | some c => c.ship.edge_width
        | none => default_edge_width
      a := match config with
        | some c => c.ship.linear_acceleration
        | none => default_linear_acceleration
      alpha := match config with
        | some c => c.ship.angular_acceleration
        | none => default_angular_acceleration
      reload_period := match config with
        | some c => c.ship.reload_period
        | none => default_reload_period
      thrusting := 0
      steering := 0
      reloading := 0
      alive := true
      image_size := (0, 0) }
  tick rotated_size 0 base

/-- Ship.position: the `[:2]` slice of the center-of-mass position. -/
def position (sh : Ship) : ℝ × ℝ := Vec3.xy sh.r_cm

/-- The Ship.position setter: `self._r_cm = numpy.array([x[0], x[1], 0])`. -/
def set_position (sh : Ship) (p : ℝ × ℝ) : Ship :=
  { sh with r_cm := ⟨p.1, p.2, 0⟩ }

/-- Ship.fire_bullet: reset the reload timer and emit a bullet from the
nose of the ship. -/
def fire_bullet (sh : Ship) : Ship × ShipResponse :=
  let sh' := { sh with reloading := sh.reload_period }
  let r_gun := Vec3.add sh.r_cm (Vec3.smul (sh.length / 2) sh.u_nose_cm)
  let v_gun := Vec3.add sh.v_cm
    (Vec3.smul (sh.length / 2) (Vec3.cross sh.omega sh.u_nose_cm))
  let bullet := Bullet.init (Vec3.xy r_gun) (Vec3.xy v_gun)
    (Vec3.xy sh.u_nose_cm) sh.color sh.config
  (sh', ShipResponse.bullet_fired bullet)

/-- Ship.handle_event: toggle thrusting, accumulate steering, and honor a
fire request only when the reload timer has run out. -/
def handle_event (sh : Ship) (event : Event) : Ship × Option ShipResponse :=
  if event.type = EType.keydown then
    if event.key = Key.up then
      ({ sh with thrusting := 1 }, none)
    else if event.key = Key.left then
      ({ sh with steering := sh.steering - 1 }, none)
    else if event.key = Key.right then
      ({ sh with steering := sh.steering + 1 }, none)
    else if event.key = Key.space then
      if sh.reloading ≤ 0 then
        let fb := fire_bullet sh
        (fb.1, some fb.2)
      else
        (sh, none)
    else
      (sh, none)
  else if event.type = EType.keyup then
    if event.key = Key.up then
      ({ sh with thrusting := 0 }, none)
    else if event.key = Key.left then
      ({ sh with steering := sh.steering + 1 }, none)
    else if event.key = Key.right then
      ({ sh with steering := sh.steering - 1 }, none)
    else
      (sh, none)
  else
    (sh, none)

/-- Ship.get_size: the size of the current (rotated) image. -/
def get_size (sh : Ship) : ℝ × ℝ := sh.image_size

/-- Ship.explode. -/
def explode (sh : Ship) : Ship := { sh with alive := false }

end Ship

/-- The duck-typed sprite interface used by Game._handle_boundary_crossings:
a position property with a setter, the image size, and the liveness query. -/
class Body (α : Type) where
  position : α → ℝ × ℝ
  set_position : α → ℝ × ℝ → α
  get_size : α → ℝ × ℝ
  is_alive : α → Bool

/-- The position setters of the three sprite classes only replace the stored
position, leaving the image size and the liveness flag untouched; these laws
record that. -/
class LawfulBody (α : Type) [Body α] : Prop where
  position_set : ∀ (s : α) (p : ℝ × ℝ), Body.position (Body.set_position s p) = p
  size_set : ∀ (s : α) (p : ℝ × ℝ), Body.get_size (Body.set_position s p) = Body.get_size s
  alive_set : ∀ (s : α) (p : ℝ × ℝ), Body.is_alive (Body.set_position s p) = Body.is_alive s

instance : Body Asteroid where
  position a := a.r
  set_position a p := { a with r := p }
  get_size := Asteroid.get_size
  is_alive a := a.alive

instance : LawfulBody Asteroid where
  position_set _ _ := rfl
  size_set _ _ := rfl
  alive_set _ _ := rfl

instance : Body Bullet where
  position b := b.r
  set_position b p := { b with r := p }
  get_size := Bullet.get_size
  is_alive b := b.alive

instance : LawfulBody Bullet where
  position_set _ _ := rfl
  size_set _ _ := rfl
  alive_set _ _ := rfl

instance : Body Ship where
  position := Ship.position
  set_position := Ship.set_position
  get_size := Ship.get_size
  is_alive sh := sh.alive

instance : LawfulBody Ship where
  position_set _ _ := rfl
  size_set _ _ := rfl
  alive_set _ _ := rfl

/-- The PLAYING / OVER flags returned by Game.tick. -/
inductive GameStatus where
  | playing
  | over
deriving DecidableEq

/-- Game: class Game of _game.py.  The HUD TextCounter / glyph-counter
widgets are modelled by their counts (score, level, respawn timer, lives). -/
structure Game where
  window_size : ℝ × ℝ
  foreground_color : Color
  config : Option Config
  initial_lives : ℤ
  asteroids_count : ℕ
  fragments_count : ℕ
  respawn_period : ℝ
  ship : Ship
  score : ℤ
  level : ℤ
  respawn_timer : ℝ
  lives : ℤ
  asteroids : List Asteroid
  bullets : List Bullet

namespace Game

/-- Game.default_initial_lives. -/
def default_initial_lives : ℤ := 3

/-- Game.default_asteroids_count. -/
def default_asteroids_count : ℕ := 3

/-- Game.default_fragments_count. -/
def default_fragments_count : ℕ := 2

/-- Game.default_respawn_period (seconds). -/
def default_respawn_period : ℝ := 3

/-- The fixed ship spawn parameters (_ship_spawn_parameters): window center,
zero velocity, heading straight up, zero angular velocity. -/
def spawn_ship (rotated_size : Vec3 → ℝ × ℝ) (g : Game) : Ship :=
  Ship.init rotated_size (g.window_size.1 / 2, g.window_size.2 / 2)
    (0, 0) (0, -1) 0 g.foreground_color g.config

/-- Game._handle_boundary_crossings, generic over the sprite type exactly as
the Python method is: dead sprites are returned unchanged; a sprite whose
center is more than half its size outside the window on some axis has that
position component set to the fixed re-entry coordinate on the far side. -/
def handle_boundary_crossings {α : Type} [Body α] (window_size : ℝ × ℝ)
    (sprite : α) : α :=
  if Body.is_alive sprite = false then sprite
  else
    let width := (Body.get_size sprite).1
    let height := (Body.get_size sprite).2
    let s1 :=
      if (Body.position sprite).1 < -width / 2 then
        Body.set_position sprite
          (window_size.1 + width / 2, (Body.position sprite).2)
      else if (Body.position sprite).1 > window_size.1 + width / 2 then
        Body.set_position sprite (-width / 2, (Body.position sprite).2)
      else sprite
    if (Body.position s1).2 < -height / 2 then
      Body.set_position s1 ((Body.position s1).1, window_size.2 + height / 2)
    else if (Body.position s1).2 > window_size.2 + height / 2 then
      Body.set_position s1 ((Body.position s1).1, -height / 2)
    else s1

/-- Game._handle_asteroid_bullet_collisions.  The snapshots of living bullet
and asteroid indices are taken up front, exactly as the Python list
comprehensions snapshot the living sprites before the nested loops mutate
them; `scipy` is the oracle standing for scipy.optimize.root (it receives
the exploding asteroid and the fragment count and yields sol.x). -/
def handle_asteroid_bullet_collisions
    (scipy : Asteroid → ℕ → ℕ → ℝ) (g : Game) : Game :=
  let living_bullets := (List.range g.bullets.length).filter fun i =>
    match g.bullets.get? i with
    | some b => b.alive
    | none => false
  let living_asteroids := (List.range g.asteroids.length).filter fun i =>
    match g.asteroids.get? i with
    | some a => a.alive
    | none => false
  living_bullets.foldl (fun g1 bi =>
    living_asteroids.foldl (fun g2 ai =>
      match g2.bullets.get? bi, g2.asteroids.get? ai with
      | some b, some a =>
        if norm2 (v2sub b.r a.r) ≤ a.diameter / 2 then
          let ex := Asteroid.explode (scipy a g2.fragments_count) a
            g2.fragments_count
          { g2 with
            asteroids := (g2.asteroids.set ai ex.1) ++ ex.2
            bullets := g2.bullets.set bi (Bullet.explode b)
            score := g2.score + 1 }
        else g2
      | _, _ => g2) g1) g

/-- Game._handle_asteroid_ship_collisions. -/
def handle_asteroid_ship_collisions
    (scipy : Asteroid → ℕ → ℕ → ℝ) (g : Game) : Game :=
  if g.ship.alive = false then g
  else
    let living_asteroids := (List.range g.asteroids.length).filter fun i =>
      match g.asteroids.get? i with
      | some a => a.alive
      | none => false
    living_asteroids.foldl (fun g2 ai =>
      match g2.asteroids.get? ai with
      | some a =>
        if norm2 (v2sub (Ship.position g2.ship) a.r) ≤ a.diameter / 2 then
          let ex := Asteroid.explode (scipy a g2.fragments_count) a
            g2.fragments_count
          { g2 with
            ship := Ship.explode g2.ship
            asteroids := (g2.asteroids.set ai ex.1) ++ ex.2
            respawn_timer := g2.respawn_period }
        else g2
      | none => g2) g

/-- The sprite-advancement block of Game.tick (lines 132-141 of _game.py):
tick the ship, every bullet and every asteroid, each followed by the
boundary-crossing handler. -/
def move_sprites (rotated_size : Vec3 → ℝ × ℝ) (dt : ℝ) (g : Game) : Game :=
  { g with
    ship := handle_boundary_crossings g.window_size
      (Ship.tick rotated_size dt g.ship)
    bullets := g.bullets.map fun b =>
      handle_boundary_crossings g.window_size (Bullet.tick dt b)
    asteroids := g.asteroids.map fun a =>
      handle_boundary_crossings g.window_size (Asteroid.tick dt a) }

/-- The level-increment block of Game.tick: when no asteroid is alive and
the session still has a live ship or remaining lives, increment the level
and install a freshly spawned asteroid field.  Game._spawn_asteroids draws
the new asteroids at random (diameters, positions re-drawn until clear of a
living ship, velocities scaled by (level + 9) / 10), so the spawned field is
passed in as the oracle `new_asteroids`. -/
def level_step (new_asteroids : List Asteroid) (g : Game) : Game :=
  let any_asteroids_alive := g.asteroids.any fun a => a.alive
  if any_asteroids_alive = false then
    if g.ship.alive = true ∨ g.lives > 0 then
      { g with level := g.level + 1, asteroids := new_asteroids }
    else g
  else g

/-- The respawn/elimination block of Game.tick: decrement the respawn timer;
if the ship is dead and the timer is at most 1, either report OVER (no lives
left) or consume a life and respawn the ship at the fixed spawn pose. -/
def respawn_step (rotated_size : Vec3 → ℝ × ℝ) (dt : ℝ) (g : Game) :
    GameStatus × Game :=
  let g1 := { g with respawn_timer := g.respawn_timer - dt }
  if g1.ship.alive = false ∧ g1.respawn_timer ≤ 1 then
    if g1.lives ≤ 0 then
      (GameStatus.over, g1)
    else
      (GameStatus.playing,
        { g1 with lives := g1.lives - 1, ship := spawn_ship rotated_size g1 })
  else
    (GameStatus.playing, g1)

/-- The state of the game just before the respawn/elimination block of
Game.tick: collisions handled, sprites advanced, level updated. -/
def pre_respawn_state (scipy : Asteroid → ℕ → ℕ → ℝ)
    (rotated_size : Vec3 → ℝ × ℝ) (new_asteroids : List Asteroid) (dt : ℝ)
    (g : Game) : Game :=
  level_step new_asteroids
    (move_sprites rotated_size dt
      (handle_asteroid_ship_collisions scipy
        (handle_asteroid_bullet_collisions scipy g)))

/-- Game.tick: collisions, sprite advancement, level progression, then the
respawn/elimination decision, returning the PLAYING / OVER status together
with the updated game. -/
def tick (scipy : Asteroid → ℕ → ℕ → ℝ) (rotated_size : Vec3 → ℝ × ℝ)
    (new_asteroids : List Asteroid) (dt : ℝ) (g : Game) : GameStatus × Game :=
  respawn_step rotated_size dt
    (pre_respawn_state scipy rotated_size new_asteroids dt g)

end Game

/-- C3: for every asteroid and fragment count N, if the parent diameter times
sqrt(area_ratio / N) is below the configured minimum diameter, then explode(N)
returns the empty fragment list and the asteroid is no longer alive
afterwards. -/
theorem explode_subthreshold_empty (sol : ℕ → ℝ) (a : Asteroid) (N : ℕ)
    (hpos : 0 < Real.sqrt (a.area_ratio / (N : ℝ)))
    (h : a.diameter * Real.sqrt (a.area_ratio / (N : ℝ)) < a.minimum_diameter) :
    (Asteroid.explode sol a N).2 = [] ∧
    (Asteroid.explode sol a N).1.alive = false := by
  have hcond : a.diameter
      < a.minimum_diameter / Real.sqrt (a.area_ratio / (N : ℝ)) :=
    (lt_div_iff₀ hpos).mpr h
  unfold Asteroid.explode
  rw [if_pos hcond]
  exact ⟨rfl, rfl⟩

/-- C4: for every asteroid whose diameter is at or above the fragmentation
threshold, explode(N) returns exactly N fragments, each with diameter
sqrt(area_ratio / N) times the parent diameter, at the parent's position,
with the parent's color and config, and the parent is marked dead. -/
theorem explode_fragment_fields (sol : ℕ → ℝ) (a : Asteroid) (N : ℕ)
    (h : a.minimum_diameter / Real.sqrt (a.area_ratio / (N : ℝ))
      ≤ a.diameter) :
    (Asteroid.explode sol a N).2.length = N ∧
    (Asteroid.explode sol a N).1.alive = false ∧
    ∀ f ∈ (Asteroid.explode sol a N).2,
      f.diameter = Real.sqrt (a.area_ratio / (N : ℝ)) * a.diameter ∧
      f.r = a.r ∧ f.color = a.color ∧ f.config = a.config := by
  have hcond : ¬ (a.diameter
      < a.minimum_diameter / Real.sqrt (a.area_ratio / (N : ℝ))) :=
    not_lt.mpr h
  unfold Asteroid.explode
  rw [if_neg hcond]
  refine ⟨by simp, rfl, ?_⟩
  intro f hf
  simp only [List.mem_ofFn] at hf
  obtain ⟨k, hk⟩ := hf
  subst hk
  exact ⟨rfl, rfl, rfl, rfl⟩

/-- A residual vector that is identically zero forces the momentum components
and the energy component of system_of_equations to vanish. -/
lemma com_residual_eq (vp : ℝ × ℝ) (N : ℕ) (v : ℕ → ℝ) :
    Asteroid.com_residual vp N v
      = [vp.1 - (∑ i ∈ Finset.range N, v (2 * i)) / (N : ℝ),
         vp.2 - (∑ i ∈ Finset.range N, v (2 * i + 1)) / (N : ℝ)] := by
  simp [Asteroid.com_residual, List.ofFn_succ]

lemma system_root_momentum_energy (vp : ℝ × ℝ) (e ar : ℝ) (N : ℕ) (v : ℕ → ℝ)
    (hroot : ∀ x ∈ Asteroid.system_of_equations vp e ar N v, x = 0) :
    vp.1 - (∑ i ∈ Finset.range N, v (2 * i)) / (N : ℝ) = 0 ∧
    vp.2 - (∑ i ∈ Finset.range N, v (2 * i + 1)) / (N : ℝ) = 0 ∧
    e * norm2 vp ^ 2 - ar / (N : ℝ)
      * ∑ kk ∈ Finset.range N, norm2 (v (2 * kk), v (2 * kk + 1)) ^ 2 = 0 := by
  have hdef : Asteroid.system_of_equations vp e ar N v
      = ((Asteroid.com_residual vp N v
          ++ [Asteroid.coe_residual vp e ar N v])
          ++ Asteroid.ev_residual N v)
          ++ Asteroid.ea_residual N v := rfl
  refine ⟨?_, ?_, ?_⟩
  · apply hroot
    rw [hdef, com_residual_eq]
    exact List.mem_append_left _ (List.mem_append_left _
      (List.mem_append_left _ (List.mem_cons_self _ _)))
  · apply hroot
    rw [hdef, com_residual_eq]
    exact List.mem_append_left _ (List.mem_append_left _
      (List.mem_append_left _ (List.mem_cons_of_mem _ (List.mem_cons_self _ _))))
  · apply hroot
    rw [hdef]
    refine List.mem_append_left _ (List.mem_append_left _
      (List.mem_append_right _ ?_))
    simp only [List.mem_singleton, Asteroid.coe_residual, Asteroid.speeds]

/-- C1: for every asteroid and every successful explode(N) call with N at
least 2 and diameter at or above the fragmentation threshold, if the solver
output is an exact root of the embedded residual system (the code accepts the
root-finder output within its tolerance), then the returned fragment
velocities conserve momentum — their mean equals the parent velocity on each
axis — and satisfy the energy law
energy_ratio * |parent_v|^2 = (area_ratio / N) * sum |v_i|^2. -/
theorem explode_conservation (sol : ℕ → ℝ) (a : Asteroid) (N : ℕ)
    (_hN : 2 ≤ N)
    (hth : a.minimum_diameter / Real.sqrt (a.area_ratio / (N : ℝ))
      ≤ a.diameter)
    (hroot : ∀ x ∈ Asteroid.system_of_equations a.v a.energy_ratio
      a.area_ratio N sol, x = 0) :
    (((Asteroid.explode sol a N).2.map fun f => f.v.1).sum / (N : ℝ)
      = a.v.1) ∧
    (((Asteroid.explode sol a N).2.map fun f => f.v.2).sum / (N : ℝ)
      = a.v.2) ∧
    (a.energy_ratio * norm2 a.v ^ 2
      = a.area_ratio / (N : ℝ)
        * ((Asteroid.explode sol a N).2.map fun f => norm2 f.v ^ 2).sum) := by
  have hcond : ¬ (a.diameter
      < a.minimum_diameter / Real.sqrt (a.area_ratio / (N : ℝ))) :=
    not_lt.mpr hth
  have hfrags : (Asteroid.explode sol a N).2
      = List.ofFn (fun k : Fin N =>
        { Asteroid.init (Real.sqrt (a.area_ratio / (N : ℝ)) * a.diameter)
            a.r (0, 0) a.color a.config with
          v := (sol (2 * k.val), sol (2 * k.val + 1)) }) := by
    unfold Asteroid.explode
    rw [if_neg hcond]
  obtain ⟨h0, h1, hE⟩ := system_root_momentum_energy a.v a.energy_ratio
    a.area_ratio N sol hroot
  have hsum1 : ((Asteroid.explode sol a N).2.map fun f => f.v.1).sum
      = ∑ i ∈ Finset.range N, sol (2 * i) := by
    rw [hfrags, List.map_ofFn, List.sum_ofFn]
    exact Fin.sum_univ_eq_sum_range (fun m => sol (2 * m)) N
  have hsum2 : ((Asteroid.explode sol a N).2.map fun f => f.v.2).sum
      = ∑ i ∈ Finset.range N, sol (2 * i + 1) := by
    rw [hfrags, List.map_ofFn, List.sum_ofFn]
    exact Fin.sum_univ_eq_sum_range (fun m => sol (2 * m + 1)) N
  have hsumE : ((Asteroid.explode sol a N).2.map fun f => norm2 f.v ^ 2).sum
      = ∑ kk ∈ Finset.range N, norm2 (sol (2 * kk), sol (2 * kk + 1)) ^ 2 := by
    rw [hfrags, List.map_ofFn, List.sum_ofFn]
    exact Fin.sum_univ_eq_sum_range
      (fun m => norm2 (sol (2 * m), sol (2 * m + 1)) ^ 2) N
  refine ⟨?_, ?_, ?_⟩
  · rw [hsum1]
    linarith [h0]
  · rw [hsum2]
    linarith [h1]
  · rw [hsumE]
    linarith [hE]

/-- A zero oracle standing in for the scipy solver output. -/
def sol0 : ℕ → ℝ := fun _ => 0

/-- A concrete asteroid below the fragmentation threshold for N = 2:
diameter 50, area ratio 1/2 (so diameter_ratio = 1/2), minimum diameter 30. -/
def astSmall : Asteroid :=
  { diameter := 50, r := (0, 0), v := (0, 0), color := (255, 255, 255)
    config := none, edge_width := 2, area_ratio := 1 / 2
    energy_ratio := 11 / 10, minimum_diameter := 30, alive := true }

/-- A concrete asteroid at the fragmentation threshold for N = 2, at rest. -/
def astBig : Asteroid :=
  { diameter := 60, r := (7, 9), v := (0, 0), color := (255, 255, 255)
    config := none, edge_width := 2, area_ratio := 1 / 2
    energy_ratio := 11 / 10, minimum_diameter := 30, alive := true }

/-- Square root of one quarter, the diameter ratio of the concrete
witness asteroids. -/
lemma sqrt_fourth : Real.sqrt ((1 : ℝ) / 4) = 1 / 2 := by
  rw [show (1 : ℝ) / 4 = (1 / 2) ^ 2 by norm_num, Real.sqrt_sq (by norm_num)]

/-- The diameter ratio of the witness asteroids evaluates to 1/2. -/
lemma witness_ratio_small :
    Real.sqrt (astSmall.area_ratio / ((2 : ℕ) : ℝ)) = 1 / 2 := by
  have h : astSmall.area_ratio / ((2 : ℕ) : ℝ) = 1 / 4 := by
    norm_num [astSmall]
  rw [h, sqrt_fourth]

/-- The diameter ratio of the big witness asteroid evaluates to 1/2. -/
lemma witness_ratio_big :
    Real.sqrt (astBig.area_ratio / ((2 : ℕ) : ℝ)) = 1 / 2 := by
  have h : astBig.area_ratio / ((2 : ℕ) : ℝ) = 1 / 4 := by
    norm_num [astBig]
  rw [h, sqrt_fourth]

/-- C3 witness: the concrete sub-threshold asteroid yields no fragments and
dies. -/
theorem explode_subthreshold_empty_witness :
    (Asteroid.explode sol0 astSmall 2).2 = [] ∧
    (Asteroid.explode sol0 astSmall 2).1.alive = false := by
  apply explode_subthreshold_empty
  · rw [witness_ratio_small]
    norm_num
  · rw [witness_ratio_small]
    norm_num [astSmall]

/-- C4 witness: the concrete at-threshold asteroid yields 2 fragments with
the solved fields. -/
theorem explode_fragment_fields_witness :
    (Asteroid.explode sol0 astBig 2).2.length = 2 ∧
    (Asteroid.explode sol0 astBig 2).1.alive = false ∧
    ∀ f ∈ (Asteroid.explode sol0 astBig 2).2,
      f.diameter = Real.sqrt (astBig.area_ratio / ((2 : ℕ) : ℝ))
        * astBig.diameter ∧
      f.r = astBig.r ∧ f.color = astBig.color ∧ f.config = astBig.config := by
  apply explode_fragment_fields
  rw [witness_ratio_big]
  norm_num [astBig]

/-- C1 witness: the at-rest at-threshold asteroid with the zero solver output
satisfies both conservation laws. -/
theorem explode_conservation_witness :
    (((Asteroid.explode sol0 astBig 2).2.map fun f => f.v.1).sum
      / ((2 : ℕ) : ℝ) = astBig.v.1) ∧
    (((Asteroid.explode sol0 astBig 2).2.map fun f => f.v.2).sum
      / ((2 : ℕ) : ℝ) = astBig.v.2) ∧
    (astBig.energy_ratio * norm2 astBig.v ^ 2
      = astBig.area_ratio / ((2 : ℕ) : ℝ)
        * ((Asteroid.explode sol0 astBig 2).2.map
          fun f => norm2 f.v ^ 2).sum) := by
  apply explode_conservation
  · norm_num
  · rw [witness_ratio_big]
    norm_num [astBig]
  · intro x hx
    simp only [Asteroid.system_of_equations, com_residual_eq,
      Asteroid.coe_residual, Asteroid.ev_residual, Asteroid.ea_residual,
      Asteroid.speeds, sol0, astBig, norm2, List.ofFn_succ, List.ofFn_zero,
      List.mem_append, List.mem_cons, List.not_mem_nil, or_false,
      Finset.sum_const_zero] at hx
    rcases hx with ((h | h) | h) | h <;> rw [h] <;> simp

/-- C9: both uniform draws feeding the direction of
Asteroid.generate_velocity lie in [0, 1), so every direction the code can
produce has nonnegative components; unit directions outside the closed first
quadrant, such as (-1, 0), are never generated, contradicting a uniform
distribution over the unit circle. -/
theorem generate_direction_first_quadrant (u0 u1 : ℝ)
    (h0 : 0 ≤ u0) (h1 : 0 ≤ u1) :
    0 ≤ (Asteroid.generate_direction u0 u1).1 ∧
    0 ≤ (Asteroid.generate_direction u0 u1).2 ∧
    Asteroid.generate_direction u0 u1 ≠ (-1, 0) := by
  have hn : 0 ≤ norm2 (u0, u1) := Real.sqrt_nonneg _
  refine ⟨div_nonneg h0 hn, div_nonneg h1 hn, fun hc => ?_⟩
  have hx : (0 : ℝ) ≤ (Asteroid.generate_direction u0 u1).1 :=
    div_nonneg h0 hn
  rw [hc] at hx
  norm_num at hx

/-- C9 witness: with draws (1, 0) the generated direction has nonnegative
components and differs from (-1, 0). -/
theorem generate_direction_first_quadrant_witness :
    0 ≤ (Asteroid.generate_direction 1 0).1 ∧
    0 ≤ (Asteroid.generate_direction 1 0).2 ∧
    Asteroid.generate_direction 1 0 ≠ (-1, 0) :=
  generate_direction_first_quadrant 1 0 (by norm_num) (by norm_num)

/-- C10: a freshly constructed ship has its reload timer equal to 0, so the
very first space key-down after construction is honored and emits a
bullet. -/
theorem ship_init_fires_immediately (rot : Vec3 → ℝ × ℝ)
    (position velocity direction : ℝ × ℝ) (angular_velocity : ℝ)
    (color : Color) (config : Option Config) :
    (Ship.init rot position velocity direction angular_velocity color
      config).reloading = 0 ∧
    ∃ b, (Ship.handle_event
      (Ship.init rot position velocity direction angular_velocity color
        config)
      ⟨EType.keydown, Key.space⟩).2 = some (ShipResponse.bullet_fired b) := by
  have hrel : (Ship.init rot position velocity direction angular_velocity
      color config).reloading = 0 := by
    simp [Ship.init, Ship.tick]
  refine ⟨hrel, ?_⟩
  unfold Ship.handle_event
  simp only [hrel]
  norm_num
  exact ⟨_, rfl⟩

/-- C5: a space key-down is honored exactly when the reload timer is at
most 0.  When honored, the reload timer is reset to the configured reload
period and a bullet is emitted at ship position plus half-length along the
heading, with velocity the center-of-mass velocity plus the rotational
contribution (half-length times omega cross heading) plus the muzzle speed
along the heading.  When rejected, the ship is unchanged and no bullet is
produced. -/
theorem handle_event_fire_gating (sh : Ship) :
    (sh.reloading ≤ 0 →
      ∃ b, Ship.handle_event sh ⟨EType.keydown, Key.space⟩
          = ({ sh with reloading := sh.reload_period },
             some (ShipResponse.bullet_fired b)) ∧
        b.r = v2add (Ship.position sh)
          (v2smul (sh.length / 2) (Vec3.xy sh.u_nose_cm)) ∧
        b.v = v2add
          (v2add (Vec3.xy sh.v_cm)
            (v2smul (sh.length / 2)
              (Vec3.xy (Vec3.cross sh.omega sh.u_nose_cm))))
          (v2smul b.muzzle_speed (Vec3.xy sh.u_nose_cm))) ∧
    (0 < sh.reloading →
      Ship.handle_event sh ⟨EType.keydown, Key.space⟩ = (sh, none)) := by
  constructor
  · intro hle
    refine ⟨Bullet.init
        (Vec3.xy (Vec3.add sh.r_cm (Vec3.smul (sh.length / 2) sh.u_nose_cm)))
        (Vec3.xy (Vec3.add sh.v_cm
          (Vec3.smul (sh.length / 2) (Vec3.cross sh.omega sh.u_nose_cm))))
        (Vec3.xy sh.u_nose_cm) sh.color sh.config, ?_, ?_, ?_⟩
    · unfold Ship.handle_event Ship.fire_bullet
      simp [hle]
    · simp [Bullet.init, Vec3.add, Vec3.smul, Vec3.xy, v2add, v2smul,
        Ship.position]
    · simp [Bullet.init, Vec3.add, Vec3.smul, Vec3.xy, v2add, v2smul]
  · intro hlt
    have hnot : ¬ sh.reloading ≤ 0 := not_le.mpr hlt
    unfold Ship.handle_event
    simp [hnot]

/-- A concrete ship that has finished reloading, for exercising the fire
path. -/
def shipW : Ship :=
  { r_cm := ⟨1, 2, 0⟩, v_cm := ⟨3, 4, 0⟩, u_nose_cm := ⟨0, -1, 0⟩
    omega := ⟨0, 0, 2⟩, color := (255, 255, 255), config := none
    length := 30, width := 30, edge_width := 2, a := 100, alpha := 0
    reload_period := 1, thrusting := 0, steering := 0, reloading := 0
    alive := true, image_size := (30, 30) }

/-- C5 witness: the concrete ready ship honors a space key-down, emitting a
bullet at its nose with the gun velocity plus muzzle speed along the
heading. -/
theorem handle_event_fire_gating_witness :
    ∃ b, Ship.handle_event shipW ⟨EType.keydown, Key.space⟩
        = ({ shipW with reloading := shipW.reload_period },
           some (ShipResponse.bullet_fired b)) ∧
      b.r = v2add (Ship.position shipW)
        (v2smul (shipW.length / 2) (Vec3.xy shipW.u_nose_cm)) ∧
      b.v = v2add
        (v2add (Vec3.xy shipW.v_cm)
          (v2smul (shipW.length / 2)
            (Vec3.xy (Vec3.cross shipW.omega shipW.u_nose_cm))))
        (v2smul b.muzzle_speed (Vec3.xy shipW.u_nose_cm)) :=
  (handle_event_fire_gating shipW).1 (by norm_num [shipW])

/-- C7: for every live body whose horizontal position is left of minus half
its width, the wraparound step sets the horizontal position to window width
plus half the body width, and symmetrically for the right, top and bottom
window edges. -/
theorem wrap_reentry_coordinates {α : Type} [Body α] [LawfulBody α]
    (ws : ℝ × ℝ) (s : α) (halive : Body.is_alive s = true)
    (hws1 : 0 ≤ ws.1) (hws2 : 0 ≤ ws.2)
    (hsz1 : 0 ≤ (Body.get_size s).1) (hsz2 : 0 ≤ (Body.get_size s).2) :
    ((Body.position s).1 < -(Body.get_size s).1 / 2 →
      (Body.position (Game.handle_boundary_crossings ws s)).1
        = ws.1 + (Body.get_size s).1 / 2) ∧
    ((Body.position s).1 > ws.1 + (Body.get_size s).1 / 2 →
      (Body.position (Game.handle_boundary_crossings ws s)).1
        = -(Body.get_size s).1 / 2) ∧
    ((Body.position s).2 < -(Body.get_size s).2 / 2 →
      (Body.position (Game.handle_boundary_crossings ws s)).2
        = ws.2 + (Body.get_size s).2 / 2) ∧
    ((Body.position s).2 > ws.2 + (Body.get_size s).2 / 2 →
      (Body.position (Game.handle_boundary_crossings ws s)).2
        = -(Body.get_size s).2 / 2) := by
  have hal : ¬ (Body.is_alive s = false) := by simp [halive]
  have hp : ∀ (t : α) (q : ℝ × ℝ), Body.position (Body.set_position t q) = q :=
    LawfulBody.position_set
  refine ⟨?_, ?_, ?_, ?_⟩ <;> intro hc <;>
    simp only [Game.handle_boundary_crossings, if_neg hal,
      apply_ite Body.position, hp, apply_ite Prod.fst, apply_ite Prod.snd,
      ite_self] <;>
    split_ifs <;> first | rfl | linarith

/-- A concrete live bullet fully beyond the left window edge. -/
def bulletC7 : Bullet :=
  { r := (-30, 40), color := (255, 255, 255), config := none, diameter := 10
    muzzle_speed := 100, lifespan := 5, v := (0, 0), alive := true, age := 0 }

/-- C7 witness: the concrete bullet left of the window re-enters at
window width plus half its width. -/
theorem wrap_reentry_coordinates_witness :
    (Body.position
      (Game.handle_boundary_crossings ((200 : ℝ), (100 : ℝ)) bulletC7)).1
      = 205 := by
  have hg1 : (Body.get_size bulletC7).1 = 10 := rfl
  have hg2 : (Body.get_size bulletC7).2 = 10 := rfl
  have hp1 : (Body.position bulletC7).1 = -30 := rfl
  have h := (wrap_reentry_coordinates ((200 : ℝ), (100 : ℝ)) bulletC7 rfl
    (by norm_num) (by norm_num) (by rw [hg1]; norm_num)
    (by rw [hg2]; norm_num)).1 (by rw [hp1, hg1]; norm_num)
  rw [hg1] at h
  rw [h]
  norm_num

/-- A concrete live bullet beyond the left window edge by more than its own
width, exhibiting a wrap displacement of more than one window width. -/
def bulletC8 : Bullet :=
  { r := (-20, 50), color := (255, 255, 255), config := none, diameter := 10
    muzzle_speed := 100, lifespan := 5, v := (0, 0), alive := true, age := 0 }

/-- C8 counterexample: the wraparound step moves the concrete bullet from
x = -20 to x = 105, a displacement of 125, which is not plus or minus the
window width 100 — the body is not translated by exactly one window
dimension. -/
theorem wrap_not_translation_counterexample :
    (Body.position
      (Game.handle_boundary_crossings ((100 : ℝ), (100 : ℝ)) bulletC8)).1
      = 105 ∧
    (Body.position
      (Game.handle_boundary_crossings ((100 : ℝ), (100 : ℝ)) bulletC8)).1
      - (Body.position bulletC8).1 ≠ 100 ∧
    (Body.position
      (Game.handle_boundary_crossings ((100 : ℝ), (100 : ℝ)) bulletC8)).1
      - (Body.position bulletC8).1 ≠ -100 := by
  have h1 : Body.is_alive bulletC8 = true := rfl
  have h2 : Body.position bulletC8 = ((-20 : ℝ), (50 : ℝ)) := rfl
  have h3 : Body.get_size bulletC8 = ((10 : ℝ), (10 : ℝ)) := rfl
  have hp : ∀ (t : Bullet) (q : ℝ × ℝ),
      Body.position (Body.set_position t q) = q :=
    LawfulBody.position_set
  have hx : (Body.position
      (Game.handle_boundary_crossings ((100 : ℝ), (100 : ℝ)) bulletC8)).1
      = 105 := by
    simp only [Game.handle_boundary_crossings, h1, h2, h3, hp,
      apply_ite Body.position, apply_ite Prod.fst, apply_ite Prod.snd,
      ite_self]
    split_ifs <;> norm_num at *
  refine ⟨hx, ?_, ?_⟩ <;> rw [hx, h2] <;> norm_num

/-- C8 corrected: whenever the wraparound step changes a position component
of a live body, the new component is one of the two fixed re-entry
coordinates (window dimension plus half size, or minus half size); the body
re-enters from the opposite side but is not, in general, translated by
exactly one window dimension. -/
theorem wrap_changes_set_reentry {α : Type} [Body α] [LawfulBody α]
    (ws : ℝ × ℝ) (s : α) (halive : Body.is_alive s = true) :
    ((Body.position (Game.handle_boundary_crossings ws s)).1
        ≠ (Body.position s).1 →
      (Body.position (Game.handle_boundary_crossings ws s)).1
          = ws.1 + (Body.get_size s).1 / 2 ∨
      (Body.position (Game.handle_boundary_crossings ws s)).1
          = -(Body.get_size s).1 / 2) ∧
    ((Body.position (Game.handle_boundary_crossings ws s)).2
        ≠ (Body.position s).2 →
      (Body.position (Game.handle_boundary_crossings ws s)).2
          = ws.2 + (Body.get_size s).2 / 2 ∨
      (Body.position (Game.handle_boundary_crossings ws s)).2
          = -(Body.get_size s).2 / 2) := by
  have hal : ¬ (Body.is_alive s = false) := by simp [halive]
  have hp : ∀ (t : α) (q : ℝ × ℝ), Body.position (Body.set_position t q) = q :=
    LawfulBody.position_set
  refine ⟨?_, ?_⟩ <;>
    simp only [Game.handle_boundary_crossings, if_neg hal,
      apply_ite Body.position, hp, apply_ite Prod.fst, apply_ite Prod.snd,
      ite_self] <;>
    split_ifs <;> intro hne <;> tauto

/-- A concrete live bullet beyond the right window edge. -/
def bulletC8w : Bullet :=
  { r := (250, 50), color := (255, 255, 255), config := none, diameter := 10
    muzzle_speed := 100, lifespan := 5, v := (0, 0), alive := true, age := 0 }

/-- C8 corrected witness: the concrete bullet beyond the right edge, whose
wrap changes its x position, lands on one of the two fixed re-entry
x coordinates. -/
theorem wrap_changes_set_reentry_witness :
    (Body.position
      (Game.handle_boundary_crossings ((200 : ℝ), (100 : ℝ)) bulletC8w)).1
        = 200 + (Body.get_size bulletC8w).1 / 2 ∨
    (Body.position
      (Game.handle_boundary_crossings ((200 : ℝ), (100 : ℝ)) bulletC8w)).1
        = -(Body.get_size bulletC8w).1 / 2 := by
  have h1 : Body.is_alive bulletC8w = true := rfl
  have h2 : Body.position bulletC8w = ((250 : ℝ), (50 : ℝ)) := rfl
  have h3 : Body.get_size bulletC8w = ((10 : ℝ), (10 : ℝ)) := rfl
  have hp : ∀ (t : Bullet) (q : ℝ × ℝ),
      Body.position (Body.set_position t q) = q :=
    LawfulBody.position_set
  have hx : (Body.position
      (Game.handle_boundary_crossings ((200 : ℝ), (100 : ℝ)) bulletC8w)).1
      = -5 := by
    simp only [Game.handle_boundary_crossings, h1, h2, h3, hp,
      apply_ite Body.position, apply_ite Prod.fst, apply_ite Prod.snd,
      ite_self]
    split_ifs <;> norm_num at *
  have h := (wrap_changes_set_reentry ((200 : ℝ), (100 : ℝ)) bulletC8w rfl).1
    (by rw [hx, h2]; norm_num)
  exact h

/-- The boundary-crossing handler never changes a sprite's liveness. -/
lemma handle_boundary_alive {α : Type} [Body α] [LawfulBody α]
    (ws : ℝ × ℝ) (s : α) :
    Body.is_alive (Game.handle_boundary_crossings ws s) = Body.is_alive s := by
  by_cases h : Body.is_alive s = false
  · simp only [Game.handle_boundary_crossings, if_pos h]
  · simp only [Game.handle_boundary_crossings, if_neg h,
      apply_ite Body.is_alive, LawfulBody.alive_set, ite_self]

/-- The boundary-crossing handler returns dead sprites unchanged. -/
lemma handle_boundary_dead {α : Type} [Body α] (ws : ℝ × ℝ) (s : α)
    (h : Body.is_alive s = false) :
    Game.handle_boundary_crossings ws s = s := by
  simp only [Game.handle_boundary_crossings, if_pos h]

/-- With no bullets in flight, the bullet-asteroid collision pass is a
no-op. -/
lemma bullet_collisions_empty (scipy : Asteroid → ℕ → ℕ → ℝ) (g : Game)
    (h : g.bullets = []) :
    Game.handle_asteroid_bullet_collisions scipy g = g := by
  unfold Game.handle_asteroid_bullet_collisions
  rw [h]
  simp

/-- With a dead ship, the ship-asteroid collision pass is a no-op. -/
lemma ship_collisions_dead (scipy : Asteroid → ℕ → ℕ → ℝ) (g : Game)
    (h : g.ship.alive = false) :
    Game.handle_asteroid_ship_collisions scipy g = g := by
  unfold Game.handle_asteroid_ship_collisions
  rw [if_pos h]

/-- The advancement step does not change the ship's liveness. -/
lemma move_sprites_ship_alive (rot : Vec3 → ℝ × ℝ) (dt : ℝ) (g : Game) :
    (Game.move_sprites rot dt g).ship.alive = g.ship.alive := by
  have h := handle_boundary_alive (α := Ship) g.window_size
    (Ship.tick rot dt g.ship)
  exact h

/-- The level step never changes the ship. -/
lemma level_step_ship (na : List Asteroid) (g : Game) :
    (Game.level_step na g).ship = g.ship := by
  simp only [Game.level_step]
  split_ifs <;> rfl

/-- The level step never changes the lives counter. -/
lemma level_step_lives (na : List Asteroid) (g : Game) :
    (Game.level_step na g).lives = g.lives := by
  simp only [Game.level_step]
  split_ifs <;> rfl

/-- The level step never changes the respawn timer. -/
lemma level_step_timer (na : List Asteroid) (g : Game) :
    (Game.level_step na g).respawn_timer = g.respawn_timer := by
  simp only [Game.level_step]
  split_ifs <;> rfl

/-- The respawn step never changes the asteroid field. -/
lemma respawn_step_asteroids (rot : Vec3 → ℝ × ℝ) (dt : ℝ) (g : Game) :
    (Game.respawn_step rot dt g).2.asteroids = g.asteroids := by
  simp only [Game.respawn_step]
  split_ifs <;> rfl

/-- Scaling a 12-component state by zero yields the zero state. -/
lemma dynstate_smul_zero (s : Ship.DynState) :
    Ship.DynState.smul 0 s = ⟨⟨0, 0, 0⟩, ⟨0, 0, 0⟩, ⟨0, 0, 0⟩, ⟨0, 0, 0⟩⟩ := by
  simp [Ship.DynState.smul, Vec3.smul]

/-- Adding the zero state is the identity. -/
lemma dynstate_add_zero (s : Ship.DynState) :
    Ship.DynState.add s ⟨⟨0, 0, 0⟩, ⟨0, 0, 0⟩, ⟨0, 0, 0⟩, ⟨0, 0, 0⟩⟩ = s := by
  simp [Ship.DynState.add, Vec3.add]

/-- The newly spawned ship has zero velocity. -/
lemma spawn_ship_v_cm (rot : Vec3 → ℝ × ℝ) (g : Game) :
    (Game.spawn_ship rot g).v_cm = ⟨0, 0, 0⟩ := by
  have h0 : (1 : ℝ) / 6 * 0 = 0 := by norm_num
  simp only [Game.spawn_ship, Ship.init, Ship.tick, h0, dynstate_smul_zero,
    dynstate_add_zero]

/-- Case analysis of the respawn/elimination step: OVER is reported exactly
when the ship is dead, the decremented timer is at most 1 and no lives
remain; with lives remaining, a life is consumed and the ship is respawned
at the fixed spawn pose. -/
lemma respawn_step_cases (rot : Vec3 → ℝ × ℝ) (dt : ℝ) (g : Game) :
    ((Game.respawn_step rot dt g).1 = GameStatus.over ↔
      g.ship.alive = false ∧ g.respawn_timer - dt ≤ 1 ∧ g.lives ≤ 0) ∧
    ((Game.respawn_step rot dt g).1 = GameStatus.playing ↔
      ¬ (g.ship.alive = false ∧ g.respawn_timer - dt ≤ 1 ∧ g.lives ≤ 0)) ∧
    (g.ship.alive = false → g.respawn_timer - dt ≤ 1 → 0 < g.lives →
      (Game.respawn_step rot dt g).2.lives = g.lives - 1 ∧
      (Game.respawn_step rot dt g).2.ship
        = Game.spawn_ship rot
            { g with respawn_timer := g.respawn_timer - dt }) := by
  simp only [Game.respawn_step]
  refine ⟨?_, ?_, ?_⟩
  · split_ifs with h1 h2 <;> simp_all
  · split_ifs with h1 h2 <;> simp_all
  · intro hA hT hL
    split_ifs with h1 h2
    · exact absurd h2 (by simp; omega)
    · exact ⟨rfl, rfl⟩
    · exact absurd ⟨hA, hT⟩ h1

/-- C6: Game.tick reports OVER exactly when, at the respawn check (after
collisions, advancement and level progression), the ship is dead, the
decremented respawn countdown is at most 1, and no lives remain; otherwise
it reports PLAYING, and when the ship is dead with the countdown at most 1
and lives remaining it decrements the lives by one and respawns a fresh
ship at the fixed spawn pose with zero velocity. -/
theorem tick_over_iff (scipy : Asteroid → ℕ → ℕ → ℝ) (rot : Vec3 → ℝ × ℝ)
    (na : List Asteroid) (dt : ℝ) (g : Game) :
    ((Game.tick scipy rot na dt g).1 = GameStatus.over ↔
      ((Game.pre_respawn_state scipy rot na dt g).ship.alive = false ∧
        (Game.pre_respawn_state scipy rot na dt g).respawn_timer - dt ≤ 1 ∧
        (Game.pre_respawn_state scipy rot na dt g).lives ≤ 0)) ∧
    ((Game.tick scipy rot na dt g).1 = GameStatus.playing ↔
      ¬ ((Game.pre_respawn_state scipy rot na dt g).ship.alive = false ∧
        (Game.pre_respawn_state scipy rot na dt g).respawn_timer - dt ≤ 1 ∧
        (Game.pre_respawn_state scipy rot na dt g).lives ≤ 0)) ∧
    ((Game.pre_respawn_state scipy rot na dt g).ship.alive = false →
      (Game.pre_respawn_state scipy rot na dt g).respawn_timer - dt ≤ 1 →
      0 < (Game.pre_respawn_state scipy rot na dt g).lives →
      (Game.tick scipy rot na dt g).2.lives
          = (Game.pre_respawn_state scipy rot na dt g).lives - 1 ∧
      (Game.tick scipy rot na dt g).2.ship
          = Game.spawn_ship rot
              { Game.pre_respawn_state scipy rot na dt g with
                respawn_timer :=
                  (Game.pre_respawn_state scipy rot na dt g).respawn_timer
                    - dt } ∧
      (Game.tick scipy rot na dt g).2.ship.v_cm = ⟨0, 0, 0⟩) := by
  have h := respawn_step_cases rot dt (Game.pre_respawn_state scipy rot na dt g)
  refine ⟨h.1, h.2.1, ?_⟩
  intro hA hT hL
  obtain ⟨hl, hs⟩ := h.2.2 hA hT hL
  have hv : (Game.tick scipy rot na dt g).2.ship
      = Game.spawn_ship rot
          { Game.pre_respawn_state scipy rot na dt g with
            respawn_timer :=
              (Game.pre_respawn_state scipy rot na dt g).respawn_timer
                - dt } := hs
  exact ⟨hl, hs, by rw [hv]; exact spawn_ship_v_cm rot _⟩

/-- The scipy oracle used by the concrete game states. -/
def scipyZero : Asteroid → ℕ → ℕ → ℝ := fun _ _ _ => 0

/-- The rotated-image-size oracle used by the concrete game states. -/
def rot0 : Vec3 → ℝ × ℝ := fun _ => (30, 30)

/-- A concrete dead ship. -/
def shipDead : Ship :=
  { r_cm := ⟨50, 50, 0⟩, v_cm := ⟨0, 0, 0⟩, u_nose_cm := ⟨0, -1, 0⟩
    omega := ⟨0, 0, 0⟩, color := (255, 255, 255), config := none
    length := 30, width := 30, edge_width := 2, a := 100, alpha := 0
    reload_period := 1, thrusting := 0, steering := 0, reloading := 0
    alive := false, image_size := (30, 30) }

/-- A concrete game with a dead ship, an empty field and two remaining
lives, one second and a half before the respawn deadline. -/
def gameW2 : Game :=
  { window_size := (100, 100), foreground_color := (255, 255, 255)
    config := none, initial_lives := 3, asteroids_count := 3
    fragments_count := 2, respawn_period := 3, ship := shipDead, score := 0
    level := 1, respawn_timer := 3 / 2, lives := 2, asteroids := []
    bullets := [] }

/-- C6 witness: ticking the concrete dead-ship game with two lives left
consumes a life and keeps playing. -/
theorem tick_over_iff_witness :
    (Game.tick scipyZero rot0 [] 1 gameW2).2.lives = 1 ∧
    (Game.tick scipyZero rot0 [] 1 gameW2).1 = GameStatus.playing := by
  have e1 : Game.handle_asteroid_bullet_collisions scipyZero gameW2
      = gameW2 := bullet_collisions_empty scipyZero gameW2 rfl
  have e2 : Game.handle_asteroid_ship_collisions scipyZero gameW2
      = gameW2 := ship_collisions_dead scipyZero gameW2 rfl
  have hpre : Game.pre_respawn_state scipyZero rot0 [] 1 gameW2
      = Game.level_step [] (Game.move_sprites rot0 1 gameW2) := by
    unfold Game.pre_respawn_state
    rw [e1, e2]
  have hA : (Game.pre_respawn_state scipyZero rot0 [] 1 gameW2).ship.alive
      = false := by
    rw [hpre, level_step_ship, move_sprites_ship_alive]
    rfl
  have hT : (Game.pre_respawn_state scipyZero rot0 [] 1 gameW2).respawn_timer
      = 3 / 2 := by
    rw [hpre, level_step_timer]
    rfl
  have hLv : (Game.pre_respawn_state scipyZero rot0 [] 1 gameW2).lives
      = 2 := by
    rw [hpre, level_step_lives]
    rfl
  have h := (tick_over_iff scipyZero rot0 [] 1 gameW2).2.2 hA
    (by rw [hT]; norm_num) (by rw [hLv]; norm_num)
  refine ⟨by rw [h.1, hLv]; norm_num, ?_⟩
  refine ((tick_over_iff scipyZero rot0 [] 1 gameW2).2.1).mpr ?_
  intro hcon
  rw [hLv] at hcon
  norm_num at hcon

/-- C2 corrected: Game.tick excludes dead bodies from collision handling,
boundary wraparound and drawing, but the advancement loop calls tick on
every body regardless of liveness: a dead asteroid's position still advances
by dt times its velocity. -/
theorem tick_advances_dead_asteroids (scipy : Asteroid → ℕ → ℕ → ℝ)
    (rot : Vec3 → ℝ × ℝ) (na : List Asteroid) (dt : ℝ) (g : Game) (i : ℕ)
    (a : Asteroid)
    (hb : g.bullets = []) (hs : g.ship.alive = false)
    (ha : g.asteroids.get? i = some a) (hdead : a.alive = false)
    (halive : ∃ b ∈ g.asteroids, b.alive = true) :
    (Game.tick scipy rot na dt g).2.asteroids.get? i
      = some { a with r := v2add a.r (v2smul dt a.v) } := by
  have e1 : Game.handle_asteroid_bullet_collisions scipy g = g :=
    bullet_collisions_empty scipy g hb
  have e2 : Game.handle_asteroid_ship_collisions scipy g = g :=
    ship_collisions_dead scipy g hs
  have hget : (Game.move_sprites rot dt g).asteroids.get? i
      = some (Asteroid.tick dt a) := by
    show (g.asteroids.map fun x =>
      Game.handle_boundary_crossings g.window_size (Asteroid.tick dt x)).get? i
      = some (Asteroid.tick dt a)
    rw [List.get?_map, ha]
    have hd : Body.is_alive (Asteroid.tick dt a) = false := hdead
    show some (Game.handle_boundary_crossings g.window_size
      (Asteroid.tick dt a)) = _
    rw [handle_boundary_dead g.window_size (Asteroid.tick dt a) hd]
  have hany : ((Game.move_sprites rot dt g).asteroids.any
      fun x => x.alive) = true := by
    obtain ⟨b, hbmem, hbal⟩ := halive
    apply List.any_eq_true.mpr
    refine ⟨Game.handle_boundary_crossings g.window_size
      (Asteroid.tick dt b), ?_, ?_⟩
    · exact List.mem_map_of_mem _ hbmem
    · have hba := handle_boundary_alive (α := Asteroid) g.window_size
        (Asteroid.tick dt b)
      exact hba.trans hbal
  have e3 : Game.level_step na (Game.move_sprites rot dt g)
      = Game.move_sprites rot dt g := by
    simp only [Game.level_step, hany]
    norm_num
  have hpre : Game.pre_respawn_state scipy rot na dt g
      = Game.move_sprites rot dt g := by
    unfold Game.pre_respawn_state
    rw [e1, e2, e3]
  show (Game.respawn_step rot dt
    (Game.pre_respawn_state scipy rot na dt g)).2.asteroids.get? i = _
  rw [respawn_step_asteroids, hpre, hget]
  rfl

/-- A concrete dead asteroid at the origin with a nonzero velocity. -/
def deadAstW : Asteroid :=
  { diameter := 30, r := (0, 0), v := (10, 0), color := (255, 255, 255)
    config := none, edge_width := 2, area_ratio := 3 / 4
    energy_ratio := 11 / 10, minimum_diameter := 30, alive := false }

/-- A concrete live asteroid at rest, well inside the window. -/
def liveAstW : Asteroid :=
  { diameter := 30, r := (50, 50), v := (0, 0), color := (255, 255, 255)
    config := none, edge_width := 2, area_ratio := 3 / 4
    energy_ratio := 11 / 10, minimum_diameter := 30, alive := true }

/-- A concrete game holding only a dead asteroid, a dead ship, no bullets
and no remaining lives, far from the respawn deadline. -/
def gameC2 : Game :=
  { window_size := (100, 100), foreground_color := (255, 255, 255)
    config := none, initial_lives := 3, asteroids_count := 3
    fragments_count := 2, respawn_period := 3, ship := shipDead, score := 0
    level := 1, respawn_timer := 10, lives := 0, asteroids := [deadAstW]
    bullets := [] }

/-- C2 counterexample: ticking the concrete game advances its dead
asteroid from (0, 0) to (10, 0) — the dead body is not excluded from the
physics advancement step, contrary to the claim. -/
theorem tick_dead_asteroid_moves_counterexample :
    deadAstW.alive = false ∧
    ((Game.tick scipyZero rot0 [] 1 gameC2).2.asteroids.map fun x => x.r)
      = [((10 : ℝ), (0 : ℝ))] := by
  refine ⟨rfl, ?_⟩
  have e1 : Game.handle_asteroid_bullet_collisions scipyZero gameC2
      = gameC2 := bullet_collisions_empty scipyZero gameC2 rfl
  have e2 : Game.handle_asteroid_ship_collisions scipyZero gameC2
      = gameC2 := ship_collisions_dead scipyZero gameC2 rfl
  have hast : (Game.move_sprites rot0 1 gameC2).asteroids
      = [{ deadAstW with r := v2add deadAstW.r (v2smul 1 deadAstW.v) }] := by
    show [Game.handle_boundary_crossings gameC2.window_size
      (Asteroid.tick 1 deadAstW)] = _
    rw [handle_boundary_dead gameC2.window_size (Asteroid.tick 1 deadAstW)
      rfl]
    rfl
  have e3 : Game.level_step [] (Game.move_sprites rot0 1 gameC2)
      = Game.move_sprites rot0 1 gameC2 := by
    simp only [Game.level_step, hast]
    have hship : (Game.move_sprites rot0 1 gameC2).ship.alive = false := by
      rw [move_sprites_ship_alive]
      rfl
    rw [if_pos (by rfl), if_neg]
    intro hcon
    rcases hcon with hcon | hcon
    · rw [hship] at hcon
      exact absurd hcon (by norm_num)
    · exact absurd hcon (by norm_num [Game.move_sprites, gameC2])
  have hpre : Game.pre_respawn_state scipyZero rot0 [] 1 gameC2
      = Game.move_sprites rot0 1 gameC2 := by
    unfold Game.pre_respawn_state
    rw [e1, e2, e3]
  show ((Game.respawn_step rot0 1
    (Game.pre_respawn_state scipyZero rot0 [] 1 gameC2)).2.asteroids.map
      fun x => x.r) = _
  rw [respawn_step_asteroids, hpre, hast]
  norm_num [v2add, v2smul, deadAstW]

/-- A concrete game holding a dead asteroid and a live one, with a dead
ship, no bullets, and lives remaining. -/
def gameC2w : Game :=
  { window_size := (100, 100), foreground_color := (255, 255, 255)
    config := none, initial_lives := 3, asteroids_count := 3
    fragments_count := 2, respawn_period := 3, ship := shipDead, score := 0
    level := 1, respawn_timer := 10, lives := 2
    asteroids := [deadAstW, liveAstW], bullets := [] }

/-- C2 corrected witness: ticking the concrete two-asteroid game advances
the dead asteroid at index 0 to (10, 0). -/
theorem tick_advances_dead_asteroids_witness :
    (Game.tick scipyZero rot0 [] 1 gameC2w).2.asteroids.get? 0
      = some { deadAstW with r := (10, 0) } := by
  have h := tick_advances_dead_asteroids scipyZero rot0 [] 1 gameC2w 0
    deadAstW rfl rfl rfl rfl
    ⟨liveAstW, List.mem_cons_of_mem _ (List.mem_cons_self _ _), rfl⟩
  have hr : v2add deadAstW.r (v2smul 1 deadAstW.v) = ((10 : ℝ), (0 : ℝ)) := by
    norm_num [v2add, v2smul, deadAstW]
  rw [hr] at h
  exact h

end

end AsteroidsGame
